import Mathlib

/-!
Verification of the face-attendance identification pipeline.

Shallow embedding of the core components of the system:
`face_engine/matcher.py` (cosine-similarity 1:N matching),
`face_engine/embedder.py` (embedding post-processing and L2 normalization),
`face_engine/detector.py` (single-face gate and crop computation),
`face_engine/liveness.py` (movement/blink liveness check),
`pages/attendance.py` (per-cycle orchestration) and
`db/database.py` / `db/database_extensions.py` (attempt log and
same-day presence query).

Real-valued numpy arithmetic is modelled over `ℝ` on `List ℝ`; the
external model inference, the MediaPipe face detector and the MediaPipe
landmark extractor are modelled as explicit function parameters, exactly
at the boundary where the Python code calls into those libraries.
-/

namespace FaceAttendance

/-! ## Vector primitives (numpy / sklearn)

`dot` is the inner product of two equal-length vectors (`np.dot` /
the row product used by `sklearn.metrics.pairwise.cosine_similarity`);
`normSq` is the squared L2 norm and `l2norm` is `np.linalg.norm`. -/

def dot : List ℝ → List ℝ → ℝ
  | a :: as, b :: bs => a * b + dot as bs
  | _, _ => 0

def normSq (v : List ℝ) : ℝ := dot v v

noncomputable def l2norm (v : List ℝ) : ℝ := Real.sqrt (normSq v)

/-- Row normalization as performed inside `sklearn`'s
`cosine_similarity`: each row is divided by its L2 norm, with zero
norms replaced by 1 (so a zero row is returned unchanged). -/
noncomputable def sklearnNormalizeRow (v : List ℝ) : List ℝ :=
  if l2norm v = 0 then v else v.map (fun x => x / l2norm v)

/-- Cosine similarity of two vectors, as computed by
`sklearn.metrics.pairwise.cosine_similarity` in
`FaceMatcher.match_1_to_n`: the dot product of the L2-normalized
rows. -/
noncomputable def cosine_similarity (a b : List ℝ) : ℝ :=
  dot (sklearnNormalizeRow a) (sklearnNormalizeRow b)

/-! ## Matcher (`face_engine/matcher.py`) -/

/-- Default similarity threshold, `utils/config.py` line 21. -/
def COSINE_SIMILARITY_THRESHOLD : ℝ := 0.80

/-- Value of `np.max` on a (nonempty) list; 0 for the empty list. -/
noncomputable def npMax (l : List ℝ) : ℝ := l.max?.getD 0

/-- `np.argmax`: index of the first occurrence of the maximum of the
array (numpy documents that ties return the first occurrence). -/
noncomputable def npArgmax (l : List ℝ) : ℕ :=
  l.findIdx (fun x => decide (x = npMax l))

/-- One enrolled row of the signature store, as returned by
`Database.get_all_embeddings`: a `(student_id, student_name, embedding)`
tuple. -/
structure Candidate where
  student_id : String
  student_name : String
  embedding : List ℝ

instance : Inhabited Candidate := ⟨⟨"", "", []⟩⟩

/-- `FaceMatcher.match_1_to_n`.  Returns
`(student_id, student_name, similarity_score, search_time_ms)`;
`(None, None, best_score, search_time)` when no match is above the
threshold, and `(None, None, 0.0, 0.0)` on an empty store.  Wall-clock
search time is not representable in the embedding; the elapsed time
measured by the nonempty branch is passed in as `search_time_ms`. -/
noncomputable def match_1_to_n (threshold : ℝ) (query_embedding : List ℝ)
    (database_embeddings : List Candidate) (search_time_ms : ℝ) :
    Option String × Option String × ℝ × ℝ :=
  if database_embeddings.length = 0 then (none, none, 0.0, 0.0)
  else
    let similarities := database_embeddings.map
      (fun item => cosine_similarity query_embedding item.embedding)
    let best_idx := npArgmax similarities
    let best_score := similarities.getD best_idx 0
    if best_score ≥ threshold then
      (some (database_embeddings.getD best_idx default).student_id,
       some (database_embeddings.getD best_idx default).student_name,
       best_score, search_time_ms)
    else
      (none, none, best_score, search_time_ms)

/-! ## Embedder (`face_engine/embedder.py`)

The ONNX inference session is external; it is modelled as a function
from the (preprocessed) face crop to the flattened raw output vector
`outputs[0].flatten()`.  The face crop is modelled by its element
count, which is all `generate_embedding` inspects (`face_image.size`). -/

/-- Canonical embedding dimension, `utils/config.py` line 18. -/
def EMBEDDING_DIM : ℕ := 512

/-- A face image as seen by `generate_embedding`: only its numpy
element count `size` is inspected. -/
structure NpImage where
  size : ℕ

/-- A loaded ONNX inference session: `run img` is the flattened first
output of `self.session.run` on the preprocessed crop. -/
structure ModelSession where
  run : NpImage → List ℝ

/-- Dimension-repair step of `generate_embedding` (lines 100-107):
zero-pad a short raw output, truncate a long one, leave a 512-vector
unchanged. -/
def padOrTruncate (embedding : List ℝ) : List ℝ :=
  if embedding.length ≠ EMBEDDING_DIM then
    if embedding.length < EMBEDDING_DIM then
      embedding ++ List.replicate (EMBEDDING_DIM - embedding.length) 0
    else
      embedding.take EMBEDDING_DIM
  else embedding

/-- `FaceEmbedder._normalize_embedding`: divide by the L2 norm, except
that a zero-norm vector is returned unchanged (`if norm == 0: return
embedding`). -/
noncomputable def normalize_embedding (embedding : List ℝ) : List ℝ :=
  if l2norm embedding = 0 then embedding
  else embedding.map (fun x => x / l2norm embedding)

/-- `FaceEmbedder.generate_embedding`: `None` when the model is not
loaded or the crop is missing/empty; otherwise the raw inference
output is padded/truncated to `EMBEDDING_DIM` and L2-normalized. -/
noncomputable def generate_embedding (session : Option ModelSession)
    (face_image : Option NpImage) : Option (List ℝ) :=
  match session with
  | none => none
  | some s =>
    match face_image with
    | none => none
    | some img =>
      if img.size = 0 then none
      else some (normalize_embedding (padOrTruncate (s.run img)))

/-! ## Detector (`face_engine/detector.py`)

MediaPipe's detector is external; it is modelled as a function from
the frame to the list of detections (`results.detections`), each with
a relative bounding box and a confidence score.  Coordinates are
rational, matching the exact arithmetic of the crop computation. -/

/-- Crop padding in pixels, `utils/config.py` line 14. -/
def FACE_CROP_PADDING : ℤ := 20

/-- An input frame; `image.shape` yields `(h, w, _)`. -/
structure Frame where
  h : ℕ
  w : ℕ

/-- One MediaPipe detection: relative bounding box and confidence. -/
structure Detection where
  xmin : ℚ
  ymin : ℚ
  width : ℚ
  height : ℚ
  score : ℚ

instance : Inhabited Detection := ⟨⟨0, 0, 0, 0, 0⟩⟩

/-- Python `int(...)` conversion: truncation toward zero. -/
def pyInt (q : ℚ) : ℤ := if q < 0 then -(⌊-q⌋) else ⌊q⌋

/-- The cropped face region `image[y:y+box_h, x:x+box_w]`, recorded as
the source frame together with the slice bounds. -/
structure FaceCrop where
  frame : Frame
  x : ℤ
  y : ℤ
  box_w : ℤ
  box_h : ℤ

/-- The `detection_info` dictionary returned alongside the crop. -/
structure DetectionInfo where
  bbox : ℤ × ℤ × ℤ × ℤ
  confidence : ℚ

/-- `FaceDetector.detect_single_face`: `None` unless exactly one face
is detected; otherwise the padded, clipped crop with its bounding box
and confidence. -/
def detect_single_face (process : Frame → List Detection) (image : Frame) :
    Option (FaceCrop × DetectionInfo) :=
  let results := process image
  if results.isEmpty || results.length ≠ 1 then none
  else
    let detection := results.getD 0 default
    let h : ℤ := image.h
    let w : ℤ := image.w
    let x0 := pyInt (detection.xmin * image.w)
    let y0 := pyInt (detection.ymin * image.h)
    let bw0 := pyInt (detection.width * image.w)
    let bh0 := pyInt (detection.height * image.h)
    let x := max 0 (x0 - FACE_CROP_PADDING)
    let y := max 0 (y0 - FACE_CROP_PADDING)
    let box_w := min (w - x) (bw0 + 2 * FACE_CROP_PADDING)
    let box_h := min (h - y) (bh0 + 2 * FACE_CROP_PADDING)
    some (⟨image, x, y, box_w, box_h⟩, ⟨(x, y, box_w, box_h), detection.score⟩)

/-- `FaceDetector.detect_faces_count`: 0 when `results.detections` is
falsy, its length otherwise. -/
def detect_faces_count (process : Frame → List Detection) (image : Frame) : ℕ :=
  let results := process image
  if results.isEmpty then 0 else results.length

/-! ## Liveness (`face_engine/liveness.py`)

MediaPipe FaceMesh landmark extraction is external; it is modelled as
a function from a frame to the optional `468 × 3` landmark array,
represented as a list of coordinate triples. -/

/-- Number of consecutive frames analysed, `utils/config.py` line 27. -/
def LIVENESS_FRAMES_COUNT : ℕ := 3

/-- Movement-variance threshold, `utils/config.py` line 28. -/
def LIVENESS_MOVEMENT_THRESHOLD : ℝ := 0.0005

/-- EAR-variance threshold for blink detection, `utils/config.py`
line 29. -/
def EYE_ASPECT_RATIO_THRESHOLD : ℝ := 0.001

/-- A single landmark point `(x, y, z)`. -/
def Point : Type := ℝ × ℝ × ℝ

/-- The landmark array extracted from one frame. -/
def Landmarks : Type := List Point

/-- Left-eye landmark indices (MediaPipe 468-landmark topology). -/
def LEFT_EYE_INDICES : List ℕ := [33, 160, 158, 133, 153, 144]

/-- Right-eye landmark indices. -/
def RIGHT_EYE_INDICES : List ℕ := [362, 385, 387, 263, 373, 380]

/-- Euclidean distance between two landmark points
(`np.linalg.norm(p - q)`). -/
noncomputable def pointDist (p q : Point) : ℝ :=
  Real.sqrt ((p.1 - q.1) ^ 2 + (p.2.1 - q.2.1) ^ 2 + (p.2.2 - q.2.2) ^ 2)

/-- `LivenessDetector._calculate_ear`: eye aspect ratio from the six
ordered eye landmarks. -/
noncomputable def calculate_ear (landmarks : Landmarks) (eye_indices : List ℕ) : ℝ :=
  let pt := fun i => landmarks.getD (eye_indices.getD i 0) (0, 0, 0)
  let vertical_1 := pointDist (pt 1) (pt 5)
  let vertical_2 := pointDist (pt 2) (pt 4)
  let horizontal := pointDist (pt 0) (pt 3)
  (vertical_1 + vertical_2) / (2 * horizontal)

/-- `np.mean` of a 1-D array (0 on the empty array, via `0 / 0 = 0`). -/
noncomputable def npMean (xs : List ℝ) : ℝ := xs.sum / xs.length

/-- `np.var` of a 1-D array: population variance, the mean of the
squared deviations from the mean. -/
noncomputable def npVar (xs : List ℝ) : ℝ :=
  npMean (xs.map (fun x => (x - npMean xs) ^ 2))

/-- Row-major flattening of one frame's `L × 3` landmark array. -/
def flattenLandmarks : Landmarks → List ℝ
  | [] => []
  | p :: ps => p.1 :: p.2.1 :: p.2.2 :: flattenLandmarks ps

/-- `LivenessDetector._calculate_movement_variance`: stack the frames
into a `frames × L × 3` array, take `np.var` across the frame axis for
every landmark coordinate, and average.  Columns are indexed through
the flattened `L × 3` layout of each frame. -/
noncomputable def calculate_movement_variance (landmarks_sequence : List Landmarks) : ℝ :=
  let rows := landmarks_sequence.map flattenLandmarks
  let cols := (List.range (rows.headD []).length).map
    (fun j => rows.map (fun r => r.getD j 0))
  npMean (cols.map npVar)

/-- `LivenessDetector._detect_blink`: variance of the per-frame average
EAR, compared against the blink-variance threshold. -/
noncomputable def detect_blink (landmarks_sequence : List Landmarks) : Bool :=
  let ear_values := landmarks_sequence.map
    (fun landmarks =>
      (calculate_ear landmarks LEFT_EYE_INDICES +
       calculate_ear landmarks RIGHT_EYE_INDICES) / 2)
  decide (npVar ear_values > EYE_ASPECT_RATIO_THRESHOLD)

/-- `LivenessDetector.check_liveness`: reject short sequences and
frames without landmarks; accept on movement variance above the
threshold or on a detected blink; otherwise reject as a static
image. -/
noncomputable def check_liveness (extract : Frame → Option Landmarks)
    (frames : List Frame) : Bool × ℝ × String :=
  if frames.length < LIVENESS_FRAMES_COUNT then
    (false, 0, "Insufficient frames")
  else
    match frames.mapM extract with
    | none => (false, 0, "Face landmarks not detected")
    | some landmarks_sequence =>
      let movement_score := calculate_movement_variance landmarks_sequence
      let blink_detected := detect_blink landmarks_sequence
      if movement_score > LIVENESS_MOVEMENT_THRESHOLD then
        (true, min (movement_score * 100) 1, "Natural movement detected")
      else if blink_detected then
        (true, 0.8, "Eye blink detected")
      else
        (false, movement_score * 100, "Static image detected (no movement)")

/-! ## Attendance log (`db/database.py`, `db/database_extensions.py`)

The SQLite store is modelled as an in-memory state: the `students`
table rows (as consumed by `get_all_embeddings`) and the append-only
`attendance_logs` rows.  Timestamps are reduced to their calendar day
(the only component the queries under verification inspect). -/

/-- One row of `attendance_logs`. -/
structure LogRow where
  student_id : Option String
  day : ℕ
  status : String
  similarity_score : Option ℝ
  processing_time_ms : ℝ

/-- The database state. -/
structure DB where
  students : List Candidate
  logs : List LogRow

/-- `Database.log_attendance`: unconditionally INSERT one row into
`attendance_logs`.  `day` is the calendar day of `datetime.now()`. -/
def log_attendance (db : DB) (student_id : Option String) (status : String)
    (similarity_score : Option ℝ) (processing_time_ms : ℝ) (day : ℕ) : DB :=
  { db with logs := db.logs ++ [⟨student_id, day, status, similarity_score, processing_time_ms⟩] }

/-- `check_attendance_today` (`db/database_extensions.py` lines 76-89):
`SELECT COUNT(*) ... WHERE student_id = ? AND DATE(timestamp) =
DATE('now') AND status = 'SUCCESS'`, compared against 0.  `today` is
the current calendar day `DATE('now')`. -/
def check_attendance_today (db : DB) (student_id : String) (today : ℕ) : Bool :=
  0 < db.logs.countP
    (fun r => r.student_id == some student_id && r.day == today && r.status == "SUCCESS")

/-! ## Orchestrator cycle (`pages/attendance.py`, `process_attendance`) -/

/-- The `result_data` dictionary built by `process_attendance`. -/
structure ResultData where
  student_id : Option String
  student_name : Option String
  similarity_score : ℝ
  processing_time : ℝ
  liveness : String
  is_live : Bool

/-- Per-cycle environment: the detector and embedder objects passed to
`process_attendance`, the captured frame, and the ambient quantities
the code reads from the wall clock (`processing_time`, the matcher's
internal `search_time`, and the calendar day of `datetime.now()`). -/
structure CycleEnv where
  detector : Frame → Option (FaceCrop × DetectionInfo)
  embedder : FaceCrop → Option (List ℝ)
  frame : Frame
  day : ℕ
  processing_time : ℝ
  search_time : ℝ

/-- `process_attendance`: detect a single face, embed it, match it
against the store, and log exactly one attempt row; the liveness check
is skipped (`is_live = True`, "Skipped for speed") exactly as in the
source.  Returns the `(result_data, error)` pair together with the
updated database state. -/
noncomputable def process_attendance (env : CycleEnv) (db : DB) :
    (Option ResultData × Option String) × DB :=
  match env.detector env.frame with
  | none =>
    ((none, some "No face detected"),
     log_attendance db none "FAILURE" (some 0) env.processing_time env.day)
  | some (face_crop, _info) =>
    match env.embedder face_crop with
    | none =>
      ((none, some "Embedding generation failed"),
       log_attendance db none "FAILURE" (some 0) env.processing_time env.day)
    | some embedding =>
      let m := match_1_to_n COSINE_SIMILARITY_THRESHOLD embedding db.students env.search_time
      let db' :=
        match m.1 with
        | some sid =>
          log_attendance db (some sid) "SUCCESS" (some m.2.2.1) env.processing_time env.day
        | none =>
          log_attendance db none "FAILURE" (some m.2.2.1) env.processing_time env.day
      ((some ⟨m.1, m.2.1, m.2.2.1, env.processing_time, "Skipped for speed", true⟩, none), db')

/-- A sequence of completed orchestrator cycles: each captured frame is
processed by `process_attendance` against the evolving database
state. -/
noncomputable def runCycles (envs : List CycleEnv) (db : DB) : DB :=
  envs.foldl (fun acc env => (process_attendance env acc).2) db

/-! ## Concrete instances used to exercise the theorems -/

/-- A model session whose raw output is the 512-dimensional zero
vector (a degenerate inference result with L2 norm zero). -/
def zeroOutputSession : ModelSession := ⟨fun _ => List.replicate EMBEDDING_DIM 0⟩

/-- A model session whose raw output is the 1-dimensional vector `[1]`
(shorter than the canonical dimension, exercising zero-padding). -/
def oneHotSession : ModelSession := ⟨fun _ => [1]⟩

/-- A nonempty face crop. -/
def unitImage : NpImage := ⟨1⟩

/-- Enrolled candidate with the unit signature `[1, 0]`. -/
def candA : Candidate := ⟨"S1", "Alice", [1, 0]⟩

/-- A second enrolled candidate with the same signature as `candA`,
producing a tied maximal score. -/
def candB : Candidate := ⟨"S2", "Bob", [1, 0]⟩

/-- A database state holding one MATCHED (status `SUCCESS`) attempt for
student `S1` on day 5. -/
def dbWithSuccess : DB := ⟨[], [⟨some "S1", 5, "SUCCESS", some 1, 0⟩]⟩

/-- A cycle whose detector finds no face (its outcome is a `FAILURE`
row). -/
def noFaceEnv : CycleEnv := ⟨fun _ => none, fun _ => none, ⟨480, 640⟩, 5, 0, 0⟩

/-- A detector process reporting two faces in every frame. -/
def twoFaceProcess : Frame → List Detection := fun _ => [default, default]

/-- A 480 × 640 frame. -/
def frame0 : Frame := ⟨480, 640⟩

/-- A landmark extractor that reports the same landmark array for
every frame (a perfectly static replayed image). -/
def staticExtract : Frame → Option Landmarks := fun _ => some [((0:ℝ), (0:ℝ), (0:ℝ))]

/-! ## List and vector lemmas -/

theorem dot_nil_right (v : List ℝ) : dot v [] = 0 := by
  cases v <;> rfl

theorem dot_replicate_zero (n : ℕ) :
    dot (List.replicate n (0:ℝ)) (List.replicate n 0) = 0 := by
  induction n with
  | zero => rfl
  | succ k ih => simpa [List.replicate, dot] using ih

theorem normSq_nonneg (v : List ℝ) : 0 ≤ normSq v := by
  induction v with
  | nil => simp [normSq, dot]
  | cons x xs ih =>
    have : normSq (x :: xs) = x * x + normSq xs := rfl
    rw [this]
    exact add_nonneg (mul_self_nonneg x) ih

theorem l2norm_nonneg (v : List ℝ) : 0 ≤ l2norm v := Real.sqrt_nonneg _

theorem l2norm_replicate_zero (n : ℕ) : l2norm (List.replicate n (0:ℝ)) = 0 := by
  simp [l2norm, normSq, dot_replicate_zero, Real.sqrt_eq_zero']

theorem l2norm_eq_zero_iff (v : List ℝ) : l2norm v = 0 ↔ normSq v = 0 := by
  unfold l2norm
  rw [Real.sqrt_eq_zero (normSq_nonneg v)]

theorem padOrTruncate_length (u : List ℝ) :
    (padOrTruncate u).length = EMBEDDING_DIM := by
  unfold padOrTruncate
  split
  · split
    · simp
      omega
    · simp
      omega
  · omega

/-! ## C10: empty candidate list -/

/-- C10: `FaceMatcher.match_1_to_n` on an empty candidate list returns
`(None, None, 0.0, 0.0)` — no identity, a synthetic best score of 0.0
(not a computed maximum) and zero search latency — for every query and
regardless of the elapsed wall-clock time. -/
theorem match_1_to_n_empty (threshold : ℝ) (query_embedding : List ℝ) (t : ℝ) :
    match_1_to_n threshold query_embedding [] t = (none, none, 0.0, 0.0) := by
  simp [match_1_to_n]

/-! ## C4: exactly one log row per completed cycle -/

theorem process_attendance_logs_length (env : CycleEnv) (db : DB) :
    ((process_attendance env db).2).logs.length = db.logs.length + 1 := by
  unfold process_attendance
  split
  · simp [log_attendance]
  · split
    · simp [log_attendance]
    · dsimp only
      split <;> simp [log_attendance]

/-- C4: every completed `process_attendance` cycle appends exactly one
row to the attendance log, whatever the outcome (no face, embedding
failure, no match, or successful match): after running any list of `K`
cycles the log holds exactly `K` new rows. -/
theorem runCycles_adds_one_row_per_cycle (envs : List CycleEnv) (db : DB) :
    (runCycles envs db).logs.length = db.logs.length + envs.length := by
  induction envs generalizing db with
  | nil => simp [runCycles]
  | cons e es ih =>
    simp only [runCycles, List.foldl_cons] at ih ⊢
    rw [ih, process_attendance_logs_length, List.length_cons]
    omega

/-! ## C5: a MATCHED attempt today is never undone by later rows -/

theorem process_attendance_logs_append (env : CycleEnv) (db : DB) :
    ∃ r, ((process_attendance env db).2).logs = db.logs ++ [r] := by
  unfold process_attendance
  split
  · exact ⟨_, rfl⟩
  · split
    · exact ⟨_, rfl⟩
    · dsimp only
      split <;> exact ⟨_, rfl⟩

theorem runCycles_logs_append (envs : List CycleEnv) (db : DB) :
    ∃ s, (runCycles envs db).logs = db.logs ++ s := by
  induction envs generalizing db with
  | nil => exact ⟨[], by simp [runCycles]⟩
  | cons e es ih =>
    obtain ⟨r, hr⟩ := process_attendance_logs_append e db
    obtain ⟨s, hs⟩ := ih ((process_attendance e db).2)
    refine ⟨[r] ++ s, ?_⟩
    simp only [runCycles, List.foldl_cons] at hs ⊢
    rw [hs, hr, List.append_assoc]

/-- C5: once `check_attendance_today X` holds on day `d` (a `SUCCESS`
row for `X` dated `d` exists), it keeps holding after any number of
further completed attendance cycles, whatever their outcomes: appended
rows can never flip it back to false. -/
theorem check_attendance_today_stable (db : DB) (X : String) (d : ℕ)
    (envs : List CycleEnv)
    (h : check_attendance_today db X d = true) :
    check_attendance_today (runCycles envs db) X d = true := by
  obtain ⟨s, hs⟩ := runCycles_logs_append envs db
  simp only [check_attendance_today, decide_eq_true_eq] at h ⊢
  rw [hs, List.countP_append]
  omega

/-- Witness for C5 at a concrete store: student `S1` has a `SUCCESS`
row on day 5, and the query still answers true after a further no-face
cycle is processed. -/
theorem check_attendance_today_stable_witness :
    check_attendance_today (runCycles [noFaceEnv] dbWithSuccess) "S1" 5 = true :=
  check_attendance_today_stable dbWithSuccess "S1" 5 [noFaceEnv] (by decide)

/-! ## C8: the single-subject invariant lives in the detector -/

/-- C8: `FaceDetector.detect_single_face` returns `None` exactly when
the number of detected faces differs from 1, and returns one crop with
its detection info when exactly one face is detected — the
single-subject invariant is enforced by the detector itself. -/
theorem detect_single_face_single_subject (process : Frame → List Detection)
    (image : Frame) :
    (detect_single_face process image = none ↔
      detect_faces_count process image ≠ 1) ∧
    (detect_faces_count process image = 1 →
      ∃ crop info, detect_single_face process image = some (crop, info)) := by
  unfold detect_single_face detect_faces_count
  cases h : process image with
  | nil => simp
  | cons d tl =>
    cases tl with
    | nil => simp
    | cons d2 tl2 => simp

/-- Witness for C8: with a process reporting two detections the count
is 2 and `detect_single_face` returns `None`. -/
theorem detect_single_face_single_subject_witness :
    detect_single_face twoFaceProcess frame0 = none :=
  (detect_single_face_single_subject twoFaceProcess frame0).1.mpr (by decide)

/-! ## C9: a perfectly static frame sequence is rejected -/

theorem list_sum_of_all_eq (xs : List ℝ) (c : ℝ) (h : ∀ x ∈ xs, x = c) :
    xs.sum = xs.length * c := by
  induction xs with
  | nil => simp
  | cons y ys ih =>
    have hy : y = c := h y (by simp)
    have hs : ys.sum = ys.length * c := ih (fun x hx => h x (by simp [hx]))
    simp [hy, hs]
    ring

theorem npMean_of_all_eq (xs : List ℝ) (c : ℝ) (hne : xs ≠ []) (h : ∀ x ∈ xs, x = c) :
    npMean xs = c := by
  have h0 : xs.length ≠ 0 := fun hl => hne (List.length_eq_zero.mp hl)
  have hlen : (xs.length : ℝ) ≠ 0 := Nat.cast_ne_zero.mpr h0
  rw [npMean, list_sum_of_all_eq xs c h, mul_comm, mul_div_assoc, div_self hlen, mul_one]

theorem npMean_of_all_zero (xs : List ℝ) (h : ∀ x ∈ xs, x = 0) : npMean xs = 0 := by
  rw [npMean, List.sum_eq_zero h, zero_div]

theorem npVar_of_all_eq (xs : List ℝ) (c : ℝ) (h : ∀ x ∈ xs, x = c) :
    npVar xs = 0 := by
  cases hx : xs with
  | nil => simp [npVar, npMean]
  | cons y ys =>
    rw [← hx]
    have hne : xs ≠ [] := by simp [hx]
    have hm : npMean xs = c := npMean_of_all_eq xs c hne h
    apply npMean_of_all_zero
    intro z hz
    obtain ⟨x, hxm, hxz⟩ := List.mem_map.mp hz
    rw [← hxz, hm, h x hxm, sub_self]
    ring

theorem mapM_of_all_some (extract : Frame → Option Landmarks) (frames : List Frame)
    (lm : Landmarks) (h : ∀ f ∈ frames, extract f = some lm) :
    frames.mapM extract = some (frames.map (fun _ => lm)) := by
  induction frames with
  | nil => rfl
  | cons f fs ih =>
    have hf : extract f = some lm := h f (by simp)
    have hs := ih (fun g hg => h g (by simp [hg]))
    rw [List.mapM_cons, hf, hs, List.map_cons]
    rfl

theorem calculate_movement_variance_const (frames : List Frame) (lm : Landmarks) :
    calculate_movement_variance (frames.map (fun _ => lm)) = 0 := by
  unfold calculate_movement_variance
  apply npMean_of_all_zero
  intro z hz
  obtain ⟨col, hcol, hcz⟩ := List.mem_map.mp hz
  obtain ⟨j, _, hjc⟩ := List.mem_map.mp hcol
  rw [← hcz]
  apply npVar_of_all_eq _ ((flattenLandmarks lm).getD j 0)
  intro x hx
  rw [← hjc] at hx
  obtain ⟨r, hrm, hrx⟩ := List.mem_map.mp hx
  obtain ⟨f, hfm, hfr⟩ := List.mem_map.mp hrm
  obtain ⟨g, _, hgl⟩ := List.mem_map.mp hfm
  rw [← hrx, ← hfr, ← hgl]

theorem detect_blink_const (frames : List Frame) (lm : Landmarks) :
    detect_blink (frames.map (fun _ => lm)) = false := by
  unfold detect_blink
  have hvar : npVar ((frames.map (fun _ => lm)).map
      (fun landmarks =>
        (calculate_ear landmarks LEFT_EYE_INDICES +
         calculate_ear landmarks RIGHT_EYE_INDICES) / 2)) = 0 := by
    apply npVar_of_all_eq _
      ((calculate_ear lm LEFT_EYE_INDICES + calculate_ear lm RIGHT_EYE_INDICES) / 2)
    intro x hx
    obtain ⟨l2, hl2, hlx⟩ := List.mem_map.mp hx
    obtain ⟨g, _, hgl⟩ := List.mem_map.mp hl2
    rw [← hlx, ← hgl]
  simp only [detect_blink]
  rw [hvar]
  simp only [decide_eq_false_iff_not, not_lt]
  unfold EYE_ASPECT_RATIO_THRESHOLD
  norm_num

/-- C9: on any sequence of at least `LIVENESS_FRAMES_COUNT` frames
whose extracted landmarks are identical across frames (a perfectly
static replayed image), `check_liveness` rejects the input: the
movement variance and the EAR variance are both zero, so `is_live` is
false with confidence 0 and the static-image reason. -/
theorem check_liveness_rejects_static (extract : Frame → Option Landmarks)
    (frames : List Frame) (lm : Landmarks)
    (hlen : LIVENESS_FRAMES_COUNT ≤ frames.length)
    (hext : ∀ f ∈ frames, extract f = some lm) :
    check_liveness extract frames =
      (false, 0, "Static image detected (no movement)") := by
  unfold check_liveness
  rw [if_neg (by omega), mapM_of_all_some extract frames lm hext]
  simp only [calculate_movement_variance_const, detect_blink_const]
  rw [if_neg (by unfold LIVENESS_MOVEMENT_THRESHOLD; norm_num)]
  simp

/-- Witness for C9: three frames with the same extracted landmark
array are rejected as a static image. -/
theorem check_liveness_rejects_static_witness :
    check_liveness staticExtract [frame0, frame0, frame0] =
      (false, 0, "Static image detected (no movement)") :=
  check_liveness_rejects_static staticExtract [frame0, frame0, frame0]
    [((0:ℝ), (0:ℝ), (0:ℝ))] (by simp [LIVENESS_FRAMES_COUNT])
    (fun f _ => rfl)

/-! ## C3: the zero-norm guard does not return EMBEDDING_FAILED

The claim (and the spec sentence it comes from) says a zero-norm raw
output makes `generate_embedding` return `None`.  In the source,
`_normalize_embedding` guards the division (`if norm == 0`) by
returning the embedding unchanged, and `generate_embedding` wraps that
zero vector as a successful result — it never returns `None` on this
path. -/

theorem padOrTruncate_replicate_zero :
    padOrTruncate (List.replicate EMBEDDING_DIM (0:ℝ)) =
      List.replicate EMBEDDING_DIM (0:ℝ) := by
  unfold padOrTruncate
  simp

theorem generate_embedding_zeroOutput_eval :
    generate_embedding (some zeroOutputSession) (some unitImage) =
      some (List.replicate EMBEDDING_DIM (0:ℝ)) := by
  unfold generate_embedding zeroOutputSession unitImage
  dsimp only
  rw [if_neg (by norm_num)]
  rw [padOrTruncate_replicate_zero]
  unfold normalize_embedding
  rw [if_pos (l2norm_replicate_zero _)]

/-- Counterexample to C3: an inference whose raw output is the
512-dimensional zero vector (L2 norm zero) makes `generate_embedding`
return the zero vector as a successful result, not the
EMBEDDING_FAILED outcome `None`. -/
theorem generate_embedding_zero_norm_cex :
    generate_embedding (some zeroOutputSession) (some unitImage) =
      some (List.replicate EMBEDDING_DIM (0:ℝ)) ∧
    l2norm (List.replicate EMBEDDING_DIM (0:ℝ)) = 0 :=
  ⟨generate_embedding_zeroOutput_eval, l2norm_replicate_zero _⟩

/-- C3 (amended): when the padded/truncated raw model output has L2
norm zero, `generate_embedding` on a nonempty crop does not divide by
zero — it returns that vector unchanged (the zero vector) as a
successful result rather than the EMBEDDING_FAILED outcome `None`. -/
theorem generate_embedding_zero_norm_returns_raw (s : ModelSession) (img : NpImage)
    (hsize : img.size ≠ 0)
    (hzero : l2norm (padOrTruncate (s.run img)) = 0) :
    generate_embedding (some s) (some img) = some (padOrTruncate (s.run img)) := by
  unfold generate_embedding normalize_embedding
  dsimp only
  rw [if_neg hsize, if_pos hzero]

/-- Witness for the amended C3 at the concrete zero-output session. -/
theorem generate_embedding_zero_norm_returns_raw_witness :
    generate_embedding (some zeroOutputSession) (some unitImage) =
      some (padOrTruncate (zeroOutputSession.run unitImage)) :=
  generate_embedding_zero_norm_returns_raw zeroOutputSession unitImage
    (by norm_num [unitImage])
    (by rw [zeroOutputSession, padOrTruncate_replicate_zero]
        exact l2norm_replicate_zero _)

/-! ## C7: dimension always holds, unit norm only off the zero-norm path -/

theorem dot_map_div (u : List ℝ) (c : ℝ) :
    dot (u.map (fun x => x / c)) (u.map (fun x => x / c)) = normSq u / (c * c) := by
  induction u with
  | nil => simp [normSq, dot]
  | cons x xs ih =>
    have h1 : dot ((x :: xs).map (fun x => x / c)) ((x :: xs).map (fun x => x / c)) =
        (x / c) * (x / c) + dot (xs.map (fun x => x / c)) (xs.map (fun x => x / c)) := rfl
    have h2 : normSq (x :: xs) = x * x + normSq xs := rfl
    rw [h1, ih, h2, div_mul_div_comm, div_add_div_same]

theorem normSq_map_div_l2norm (u : List ℝ) (h : normSq u ≠ 0) :
    normSq (u.map (fun x => x / l2norm u)) = 1 := by
  have h1 : normSq (u.map (fun x => x / l2norm u)) =
      normSq u / (l2norm u * l2norm u) := dot_map_div u (l2norm u)
  rw [h1, l2norm, Real.mul_self_sqrt (normSq_nonneg u), div_self h]

theorem normalize_embedding_length (u : List ℝ) :
    (normalize_embedding u).length = u.length := by
  unfold normalize_embedding
  split <;> simp

/-- Counterexample to C7: a valid (nonempty) crop whose raw model
output is the zero vector produces a non-`None` signature whose L2
norm is 0, not within `1e-5` of 1. -/
theorem generate_embedding_unit_norm_cex :
    generate_embedding (some zeroOutputSession) (some unitImage) =
      some (List.replicate EMBEDDING_DIM (0:ℝ)) ∧
    ¬ (|l2norm (List.replicate EMBEDDING_DIM (0:ℝ)) - 1| ≤ 1 / 100000) := by
  refine ⟨generate_embedding_zeroOutput_eval, ?_⟩
  rw [l2norm_replicate_zero]
  norm_num

/-- C7 (amended): every signature returned by `generate_embedding` has
exactly `EMBEDDING_DIM` (512) components; and whenever the
padded/truncated raw output is not on the zero-norm path, the returned
signature has L2 norm exactly 1. -/
theorem generate_embedding_dim_and_unit_norm (s : ModelSession) (img : NpImage)
    (v : List ℝ) (hgen : generate_embedding (some s) (some img) = some v) :
    v.length = EMBEDDING_DIM ∧
    (normSq (padOrTruncate (s.run img)) ≠ 0 → l2norm v = 1) := by
  unfold generate_embedding at hgen
  dsimp only at hgen
  by_cases hsz : img.size = 0
  · rw [if_pos hsz] at hgen
    exact absurd hgen (by simp)
  · rw [if_neg hsz] at hgen
    have hv : normalize_embedding (padOrTruncate (s.run img)) = v :=
      Option.some_inj.mp hgen
    subst hv
    refine ⟨by rw [normalize_embedding_length, padOrTruncate_length], ?_⟩
    intro hnz
    have hl : l2norm (padOrTruncate (s.run img)) ≠ 0 :=
      fun he => hnz ((l2norm_eq_zero_iff _).mp he)
    unfold normalize_embedding
    rw [if_neg hl, l2norm, normSq_map_div_l2norm _ hnz, Real.sqrt_one]

theorem oneHot_padOrTruncate :
    padOrTruncate [(1:ℝ)] = 1 :: List.replicate 511 0 := by
  unfold padOrTruncate EMBEDDING_DIM
  norm_num

theorem oneHot_normSq : normSq (1 :: List.replicate 511 (0:ℝ)) = 1 := by
  have h : normSq (1 :: List.replicate 511 (0:ℝ)) =
      1 * 1 + dot (List.replicate 511 0) (List.replicate 511 0) := rfl
  rw [h, dot_replicate_zero]
  norm_num

theorem oneHot_l2norm : l2norm (1 :: List.replicate 511 (0:ℝ)) = 1 := by
  rw [l2norm, oneHot_normSq, Real.sqrt_one]

theorem generate_embedding_oneHot_eval :
    generate_embedding (some oneHotSession) (some unitImage) =
      some (1 :: List.replicate 511 (0:ℝ)) := by
  unfold generate_embedding oneHotSession unitImage
  dsimp only
  rw [if_neg (by norm_num), oneHot_padOrTruncate]
  unfold normalize_embedding
  rw [if_neg (by rw [oneHot_l2norm]; norm_num), oneHot_l2norm]
  simp only [div_one, List.map_id']

/-- Witness for the amended C7: a raw output `[1]` is zero-padded to
512 components and returned with unit L2 norm. -/
theorem generate_embedding_dim_and_unit_norm_witness :
    (1 :: List.replicate 511 (0:ℝ)).length = EMBEDDING_DIM ∧
    (normSq (padOrTruncate (oneHotSession.run unitImage)) ≠ 0 →
      l2norm (1 :: List.replicate 511 (0:ℝ)) = 1) :=
  generate_embedding_dim_and_unit_norm oneHotSession unitImage _
    generate_embedding_oneHot_eval

/-! ## Matcher lemmas: `np.max` and `np.argmax` -/

theorem npMax_mem (l : List ℝ) (h : l ≠ []) : npMax l ∈ l := by
  cases hm : l.max? with
  | none => exact absurd (List.max?_eq_none_iff.mp hm) h
  | some a =>
    have ha : a ∈ l := List.max?_mem max_choice hm
    simpa [npMax, hm] using ha

theorem le_npMax (l : List ℝ) (x : ℝ) (hx : x ∈ l) : x ≤ npMax l := by
  cases hm : l.max? with
  | none =>
    rw [List.max?_eq_none_iff.mp hm] at hx
    simp at hx
  | some a =>
    have h2 := (List.max?_le_iff (fun _ _ _ => max_le_iff) hm).mp (le_refl a) x hx
    simpa [npMax, hm] using h2

theorem npArgmax_lt_length (l : List ℝ) (h : l ≠ []) : npArgmax l < l.length := by
  unfold npArgmax
  exact List.findIdx_lt_length_of_exists ⟨npMax l, npMax_mem l h, by simp⟩

theorem npArgmax_getD (l : List ℝ) (h : l ≠ []) :
    l.getD (npArgmax l) 0 = npMax l := by
  have hlt : l.findIdx (fun x => decide (x = npMax l)) < l.length :=
    List.findIdx_lt_length_of_exists ⟨npMax l, npMax_mem l h, by simp⟩
  have hp := List.findIdx_getElem (p := fun x => decide (x = npMax l)) (w := hlt)
  rw [npArgmax, List.getD_eq_getElem _ _ hlt]
  simpa using hp

theorem npArgmax_eq_of_first_max (l : List ℝ) (i : ℕ) (hi : i < l.length)
    (hmax : ∀ j (hj : j < l.length), l.get ⟨j, hj⟩ ≤ l.get ⟨i, hi⟩)
    (hfirst : ∀ j (hj : j < l.length), j < i → l.get ⟨j, hj⟩ < l.get ⟨i, hi⟩) :
    npArgmax l = i := by
  have hne : l ≠ [] := by
    intro e
    rw [e] at hi
    simp at hi
  have hmx : npMax l = l.get ⟨i, hi⟩ := by
    apply le_antisymm
    · obtain ⟨j, hj, hje⟩ := List.mem_iff_getElem.mp (npMax_mem l hne)
      rw [← hje]
      exact hmax j hj
    · exact le_npMax l _ (List.get_mem l i hi)
  rw [npArgmax]
  apply (List.findIdx_eq hi).mpr
  refine ⟨by simp [hmx], ?_⟩
  intro j hj
  have hlt := hfirst j (Nat.lt_trans hj hi) hj
  simp only [decide_eq_false_iff_not]
  rw [hmx]
  exact ne_of_lt hlt

/-! ## Vector geometry lemmas for unit signatures -/

theorem normSq_zipWith_sub (a : List ℝ) (b : List ℝ) (h : a.length = b.length) :
    normSq (List.zipWith (fun x y => x - y) a b) =
      normSq a - 2 * dot a b + normSq b := by
  induction a generalizing b with
  | nil =>
    cases b with
    | nil => simp [normSq, dot]
    | cons y ys => simp at h
  | cons x xs ih =>
    cases b with
    | nil => simp at h
    | cons y ys =>
      have hl : xs.length = ys.length := by simpa using h
      have e1 : normSq (List.zipWith (fun x y => x - y) (x :: xs) (y :: ys)) =
          (x - y) * (x - y) + normSq (List.zipWith (fun x y => x - y) xs ys) := rfl
      have e2 : normSq (x :: xs) = x * x + normSq xs := rfl
      have e3 : normSq (y :: ys) = y * y + normSq ys := rfl
      have e4 : dot (x :: xs) (y :: ys) = x * y + dot xs ys := rfl
      rw [e1, ih ys hl, e2, e3, e4]
      ring

theorem dot_le_one_of_unit (a : List ℝ) (b : List ℝ) (h : a.length = b.length)
    (ha : normSq a = 1) (hb : normSq b = 1) : dot a b ≤ 1 := by
  have h0 := normSq_nonneg (List.zipWith (fun x y => x - y) a b)
  rw [normSq_zipWith_sub a b h, ha, hb] at h0
  linarith

theorem eq_of_normSq_zipWith_sub_zero (a : List ℝ) (b : List ℝ)
    (h : a.length = b.length)
    (hz : normSq (List.zipWith (fun x y => x - y) a b) = 0) : a = b := by
  induction a generalizing b with
  | nil =>
    cases b with
    | nil => rfl
    | cons y ys => simp at h
  | cons x xs ih =>
    cases b with
    | nil => simp at h
    | cons y ys =>
      have hl : xs.length = ys.length := by simpa using h
      have e1 : normSq (List.zipWith (fun x y => x - y) (x :: xs) (y :: ys)) =
          (x - y) * (x - y) + normSq (List.zipWith (fun x y => x - y) xs ys) := rfl
      rw [e1] at hz
      have h1 : 0 ≤ (x - y) * (x - y) := mul_self_nonneg _
      have h2 : 0 ≤ normSq (List.zipWith (fun x y => x - y) xs ys) := normSq_nonneg _
      have hxy : (x - y) * (x - y) = 0 := by linarith
      have hrest : normSq (List.zipWith (fun x y => x - y) xs ys) = 0 := by linarith
      have hx : x = y := sub_eq_zero.mp (mul_self_eq_zero.mp hxy)
      rw [hx, ih ys hl hrest]

theorem eq_of_unit_dot_one (a : List ℝ) (b : List ℝ) (h : a.length = b.length)
    (ha : normSq a = 1) (hb : normSq b = 1) (hd : dot a b = 1) : a = b := by
  apply eq_of_normSq_zipWith_sub_zero a b h
  rw [normSq_zipWith_sub a b h, ha, hb, hd]
  ring

theorem sklearnNormalizeRow_unit (v : List ℝ) (h : normSq v = 1) :
    sklearnNormalizeRow v = v := by
  have hn : l2norm v = 1 := by rw [l2norm, h, Real.sqrt_one]
  unfold sklearnNormalizeRow
  rw [if_neg (by rw [hn]; norm_num), hn]
  simp only [div_one, List.map_id']

theorem cosine_similarity_unit (a : List ℝ) (b : List ℝ)
    (ha : normSq a = 1) (hb : normSq b = 1) :
    cosine_similarity a b = dot a b := by
  unfold cosine_similarity
  rw [sklearnNormalizeRow_unit a ha, sklearnNormalizeRow_unit b hb]

theorem cosine_similarity_self_unit (a : List ℝ) (ha : normSq a = 1) :
    cosine_similarity a a = 1 := by
  rw [cosine_similarity_unit a a ha ha]
  exact ha

/-! ## C2: the reported best score is the true maximum -/

theorem match_1_to_n_score_eq_npMax (threshold : ℝ) (q : List ℝ)
    (db : List Candidate) (t : ℝ) (hne : db ≠ []) :
    (match_1_to_n threshold q db t).2.2.1 =
      npMax (db.map (fun c => cosine_similarity q c.embedding)) := by
  have hlen0 : ¬ db.length = 0 := by
    intro e
    exact hne (List.length_eq_zero.mp e)
  have hsne : db.map (fun c => cosine_similarity q c.embedding) ≠ [] := by
    simpa [List.map_eq_nil_iff] using hne
  unfold match_1_to_n
  rw [if_neg hlen0]
  dsimp only
  rw [npArgmax_getD _ hsne]
  split <;> rfl

/-- C2: whenever `match_1_to_n` on a non-empty candidate list reports
no identity, the score it returns is the true maximum cosine
similarity between the query and the candidate signatures: it is
attained by some candidate and dominates every candidate's
similarity — never an arbitrary, default, or stale value. -/
theorem match_1_to_n_no_match_score_true_max (threshold : ℝ) (q : List ℝ)
    (db : List Candidate) (t : ℝ) (hne : db ≠ [])
    (_hnone : (match_1_to_n threshold q db t).1 = none) :
    (∃ c ∈ db, (match_1_to_n threshold q db t).2.2.1 =
      cosine_similarity q c.embedding) ∧
    (∀ c ∈ db, cosine_similarity q c.embedding ≤
      (match_1_to_n threshold q db t).2.2.1) := by
  have hsne : db.map (fun c => cosine_similarity q c.embedding) ≠ [] := by
    simpa [List.map_eq_nil_iff] using hne
  rw [match_1_to_n_score_eq_npMax threshold q db t hne]
  constructor
  · obtain ⟨c, hc, hce⟩ := List.mem_map.mp (npMax_mem _ hsne)
    exact ⟨c, hc, hce.symm⟩
  · intro c hc
    exact le_npMax _ _ (List.mem_map_of_mem _ hc)

theorem npMax_singleton (x : ℝ) : npMax [x] = x := rfl

theorem npArgmax_singleton (x : ℝ) : npArgmax [x] = 0 := by
  unfold npArgmax
  rw [List.findIdx_cons]
  simp [npMax_singleton]

theorem normSq_e1 : normSq [(1:ℝ), 0] = 1 := by
  norm_num [normSq, dot]

theorem l2norm_00 : l2norm [(0:ℝ), 0] = 0 := by
  rw [l2norm, Real.sqrt_eq_zero (normSq_nonneg _)]
  norm_num [normSq, dot]

theorem cosine_similarity_00_e1 :
    cosine_similarity [(0:ℝ), 0] [(1:ℝ), 0] = 0 := by
  unfold cosine_similarity
  have h0 : sklearnNormalizeRow [(0:ℝ), 0] = [0, 0] := by
    unfold sklearnNormalizeRow
    rw [if_pos l2norm_00]
  rw [h0, sklearnNormalizeRow_unit _ normSq_e1]
  norm_num [dot]

theorem match_candA_zero_query_eval :
    match_1_to_n COSINE_SIMILARITY_THRESHOLD [(0:ℝ), 0] [candA] 0 =
      (none, none, 0, 0) := by
  unfold match_1_to_n
  rw [if_neg (by norm_num)]
  dsimp only
  have hm : [candA].map (fun item => cosine_similarity [(0:ℝ), 0] item.embedding) =
      [(0:ℝ)] := by
    show [cosine_similarity [(0:ℝ), 0] candA.embedding] = [(0:ℝ)]
    rw [show candA.embedding = [(1:ℝ), 0] from rfl, cosine_similarity_00_e1]
  rw [hm, npArgmax_singleton]
  rw [if_neg (by norm_num [COSINE_SIMILARITY_THRESHOLD, List.getD])]
  simp [List.getD]

/-- Witness for C2: with the single enrolled signature `[1, 0]` and
the query `[0, 0]` no identity is returned and the reported score is
the true (and only) similarity, 0. -/
theorem match_1_to_n_no_match_score_true_max_witness :
    (∃ c ∈ [candA],
      (match_1_to_n COSINE_SIMILARITY_THRESHOLD [(0:ℝ), 0] [candA] 0).2.2.1 =
        cosine_similarity [(0:ℝ), 0] c.embedding) ∧
    (∀ c ∈ [candA],
      cosine_similarity [(0:ℝ), 0] c.embedding ≤
        (match_1_to_n COSINE_SIMILARITY_THRESHOLD [(0:ℝ), 0] [candA] 0).2.2.1) :=
  match_1_to_n_no_match_score_true_max COSINE_SIMILARITY_THRESHOLD [(0:ℝ), 0]
    [candA] 0 (by simp) (by rw [match_candA_zero_query_eval])

/-! ## C6: ties at the maximum break to the first-encountered candidate -/

/-- C6: `match_1_to_n` is a stable argmax over the candidate iteration
order: if candidate `i` attains the maximum similarity and every
earlier candidate scores strictly below it (in particular when later
candidates tie with `i` at the maximum), and the maximum clears the
threshold, then the identity returned is exactly candidate `i`'s
student id and name. -/
theorem match_1_to_n_stable_argmax (threshold : ℝ) (q : List ℝ)
    (db : List Candidate) (t : ℝ) (i : ℕ) (hi : i < db.length)
    (hmax : ∀ j (hj : j < db.length),
      cosine_similarity q (db.get ⟨j, hj⟩).embedding ≤
        cosine_similarity q (db.get ⟨i, hi⟩).embedding)
    (hfirst : ∀ j (hj : j < db.length), j < i →
      cosine_similarity q (db.get ⟨j, hj⟩).embedding <
        cosine_similarity q (db.get ⟨i, hi⟩).embedding)
    (hthr : threshold ≤ cosine_similarity q (db.get ⟨i, hi⟩).embedding) :
    (match_1_to_n threshold q db t).1 = some (db.get ⟨i, hi⟩).student_id ∧
    (match_1_to_n threshold q db t).2.1 = some (db.get ⟨i, hi⟩).student_name := by
  have hlen0 : ¬ db.length = 0 := by omega
  set sims := db.map (fun c => cosine_similarity q c.embedding) with hsims
  have hslen : sims.length = db.length := List.length_map _ _
  have hi2 : i < sims.length := by omega
  have hget : ∀ j (hj : j < sims.length),
      sims.get ⟨j, hj⟩ = cosine_similarity q (db.get ⟨j, by omega⟩).embedding := by
    intro j hj
    simp [hsims]
  have hargmax : npArgmax sims = i := by
    apply npArgmax_eq_of_first_max sims i hi2
    · intro j hj
      rw [hget j hj, hget i hi2]
      exact hmax j (by omega)
    · intro j hj hji
      rw [hget j hj, hget i hi2]
      exact hfirst j (by omega) hji
  have hscore : sims.getD (npArgmax sims) 0 =
      cosine_similarity q (db.get ⟨i, hi⟩).embedding := by
    rw [hargmax, List.getD_eq_getElem _ _ hi2]
    exact hget i hi2
  have hfinal : match_1_to_n threshold q db t =
      (some (db.get ⟨i, hi⟩).student_id, some (db.get ⟨i, hi⟩).student_name,
       cosine_similarity q (db.get ⟨i, hi⟩).embedding, t) := by
    unfold match_1_to_n
    rw [if_neg hlen0]
    dsimp only
    rw [← hsims, hscore, hargmax, if_pos hthr]
    rw [List.getD_eq_getElem _ _ hi]
    rfl
  rw [hfinal]
  exact ⟨rfl, rfl⟩

theorem cosine_similarity_e1_e1 :
    cosine_similarity [(1:ℝ), 0] [(1:ℝ), 0] = 1 :=
  cosine_similarity_self_unit _ normSq_e1

/-- Witness for C6: two enrolled candidates share the signature
`[1, 0]`, both tie at similarity 1 for the query `[1, 0]`, and the
first-encountered candidate (`S1`, Alice) is the one returned. -/
theorem match_1_to_n_stable_argmax_witness :
    (match_1_to_n COSINE_SIMILARITY_THRESHOLD [(1:ℝ), 0] [candA, candB] 0).1 =
      some "S1" ∧
    (match_1_to_n COSINE_SIMILARITY_THRESHOLD [(1:ℝ), 0] [candA, candB] 0).2.1 =
      some "Alice" := by
  have hemb : ∀ j (hj : j < ([candA, candB] : List Candidate).length),
      (([candA, candB] : List Candidate).get ⟨j, hj⟩).embedding = [(1:ℝ), 0] := by
    intro j hj
    simp only [List.length_cons, List.length_nil] at hj
    interval_cases j <;> rfl
  have h := match_1_to_n_stable_argmax COSINE_SIMILARITY_THRESHOLD [(1:ℝ), 0]
    [candA, candB] 0 0 (by norm_num)
    (by
      intro j hj
      rw [hemb j hj, hemb 0 (by norm_num)])
    (by
      intro j hj hji
      omega)
    (by
      rw [hemb 0 (by norm_num), cosine_similarity_e1_e1]
      norm_num [COSINE_SIMILARITY_THRESHOLD])
  exact h

/-! ## C1: querying with an enrolled signature returns that identity -/

/-- C1: on a non-empty store of enrolled signatures (pairwise distinct
unit vectors of the query's dimension, the store invariant), querying
`match_1_to_n` with a vector exactly equal to candidate `i`'s
signature returns candidate `i`'s student id and name with similarity
score exactly 1, and 1 clears the default threshold 0.80, so the match
is accepted. -/
theorem match_1_to_n_exact_query (q : List ℝ) (db : List Candidate) (t : ℝ)
    (i : ℕ) (hi : i < db.length)
    (hq : (db.get ⟨i, hi⟩).embedding = q)
    (hunit : ∀ c ∈ db, normSq c.embedding = 1)
    (hlen : ∀ c ∈ db, c.embedding.length = q.length)
    (hnodup : (db.map Candidate.embedding).Nodup) :
    match_1_to_n COSINE_SIMILARITY_THRESHOLD q db t =
      (some (db.get ⟨i, hi⟩).student_id, some (db.get ⟨i, hi⟩).student_name, 1, t) ∧
    COSINE_SIMILARITY_THRESHOLD ≤ 1 := by
  have hne : db ≠ [] := by
    intro e
    rw [e] at hi
    simp at hi
  have hlen0 : ¬ db.length = 0 := by omega
  set sims := db.map (fun c => cosine_similarity q c.embedding) with hsims
  have hsne : sims ≠ [] := by simpa [hsims, List.map_eq_nil_iff] using hne
  have hslen : sims.length = db.length := List.length_map _ _
  have hqunit : normSq q = 1 := by
    rw [← hq]
    exact hunit _ (List.get_mem db i hi)
  have hle : ∀ x ∈ sims, x ≤ 1 := by
    intro x hx
    obtain ⟨c, hc, hce⟩ := List.mem_map.mp hx
    rw [← hce, cosine_similarity_unit q c.embedding hqunit (hunit c hc)]
    exact dot_le_one_of_unit q c.embedding ((hlen c hc).symm) hqunit (hunit c hc)
  have hi2 : i < sims.length := by omega
  have hsi : sims.get ⟨i, hi2⟩ = 1 := by
    have h1 : sims.get ⟨i, hi2⟩ = cosine_similarity q (db.get ⟨i, hi⟩).embedding := by
      simp [hsims]
    rw [h1, hq, cosine_similarity_self_unit q hqunit]
  have hmax1 : npMax sims = 1 := by
    apply le_antisymm
    · exact hle _ (npMax_mem sims hsne)
    · have hmem : (1:ℝ) ∈ sims := by
        rw [← hsi]
        exact List.get_mem sims i hi2
      exact le_npMax sims 1 hmem
  have hk2 : npArgmax sims < sims.length := npArgmax_lt_length sims hsne
  have hk : npArgmax sims < db.length := by omega
  have hkval : sims.get ⟨npArgmax sims, hk2⟩ = 1 := by
    have h2 := npArgmax_getD sims hsne
    rw [List.getD_eq_getElem _ _ hk2, hmax1] at h2
    simpa [List.get_eq_getElem] using h2
  have hembk : (db.get ⟨npArgmax sims, hk⟩).embedding = q := by
    have h1 : sims.get ⟨npArgmax sims, hk2⟩ =
        cosine_similarity q (db.get ⟨npArgmax sims, hk⟩).embedding := by
      simp [hsims]
    rw [h1] at hkval
    have hcmem : db.get ⟨npArgmax sims, hk⟩ ∈ db := List.get_mem db _ _
    rw [cosine_similarity_unit q _ hqunit (hunit _ hcmem)] at hkval
    exact (eq_of_unit_dot_one q _ ((hlen _ hcmem).symm) hqunit (hunit _ hcmem) hkval).symm
  have hmk : npArgmax sims < (db.map Candidate.embedding).length := by simpa using hk
  have hmi : i < (db.map Candidate.embedding).length := by simpa using hi
  have h1 : (db.map Candidate.embedding).get ⟨npArgmax sims, hmk⟩ =
      (db.map Candidate.embedding).get ⟨i, hmi⟩ := by
    have e1 := hembk
    have e2 := hq
    simp only [List.get_eq_getElem] at e1 e2 ⊢
    simp only [List.getElem_map]
    rw [e1, e2]
  have hki : npArgmax sims = i := by
    have hfin := hnodup.get_inj_iff.mp h1
    simpa using hfin
  refine ⟨?_, by norm_num [COSINE_SIMILARITY_THRESHOLD]⟩
  unfold match_1_to_n
  rw [if_neg hlen0]
  dsimp only
  rw [← hsims]
  have hgd : sims.getD (npArgmax sims) 0 = 1 := by
    rw [npArgmax_getD sims hsne, hmax1]
  rw [hgd, hki, if_pos (by norm_num [COSINE_SIMILARITY_THRESHOLD])]
  rw [List.getD_eq_getElem _ _ hi]
  rfl

/-- Witness for C1: a store holding the single unit signature `[1, 0]`
for student `S1` (Alice); querying with exactly `[1, 0]` returns
`(S1, Alice)` with score 1, accepted against the 0.80 threshold. -/
theorem match_1_to_n_exact_query_witness :
    match_1_to_n COSINE_SIMILARITY_THRESHOLD [(1:ℝ), 0] [candA] 0 =
      (some "S1", some "Alice", 1, 0) ∧
    COSINE_SIMILARITY_THRESHOLD ≤ 1 :=
  match_1_to_n_exact_query [(1:ℝ), 0] [candA] 0 0 (by norm_num) rfl
    (by
      intro c hc
      rw [List.mem_singleton.mp hc]
      exact normSq_e1)
    (by
      intro c hc
      rw [List.mem_singleton.mp hc]
      rfl)
    (by simp)

end FaceAttendance
